import Mathlib

/-!
Shallow embedding of the Kraken WebSocket test harness
(`src/utils/websocket_client.py` and the book-checksum helper of
`src/tests/test_book.py`) together with proofs of the specification's
claims about it.

Modelling decisions:
* JSON values are an inductive `Json`; Python `dict.get` is `Json.get?`
  (returns `none` on a missing key or a non-dict, matching the
  `isinstance(msg, dict) and msg.get(...)` guards in the source).
* Python truthiness of a `.get("success")` result is `Json.truthyOpt`.
* Inbound traffic is a list of timestamped events; each event is either a
  well-formed JSON payload or malformed text (on which `json.loads`
  raises).  Time is a natural number of abstract ticks; a blocking
  `recv` with socket timeout `t` delivers the next event if it arrives
  no later than `now + t`, otherwise it raises a socket timeout at
  `now + t`.
* Exceptions are an `Err` inductive; Python functions that raise are
  embedded as functions into `Except Err`.
-/

/-- JSON values, as produced by `json.loads`. Objects keep key order. -/
inductive Json where
  | str : String → Json
  | int : Int → Json
  | bool : Bool → Json
  | null : Json
  | arr : List Json → Json
  | obj : List (String × Json) → Json

/-- Python `d.get(k)` on a parsed message: `none` when the value is not a dict
or the key is absent (Python returns `None` in both guarded uses). -/
def Json.get? (j : Json) (k : String) : Option Json :=
  match j with
  | .obj kvs => (kvs.find? (fun kv => kv.1 = k)).map Prod.snd
  | _ => none

/-- Python truthiness of a JSON value. -/
def Json.truthy : Json → Bool
  | .str s => s != ""
  | .int n => n != 0
  | .bool b => b
  | .null => false
  | .arr l => !l.isEmpty
  | .obj kvs => !kvs.isEmpty

/-- Python truthiness of a `dict.get` result (`None` is falsy). -/
def Json.truthyOpt : Option Json → Bool
  | none => false
  | some j => j.truthy

/-- Python `d.get(k, default)`: the value at `k`, or `default` when absent. -/
def Json.getD (j : Json) (k : String) (default : Json) : Json :=
  match j.get? k with
  | some v => v
  | none => default

/-- Exceptions raised by the client. -/
inductive Err where
  /-- the `RuntimeError` raised when not connected -/
  | runtimeNotConnected : Err
  /-- socket-level timeout raised from `ws.recv()` -/
  | socketTimeout : Err
  /-- failure of `json.loads` on a malformed payload -/
  | decodeError : Err
  /-- the `TimeoutError` raised by the method-wait loop -/
  | timeoutMethod : String → Err
  /-- the `TimeoutError` raised by `receive_messages` (carries got/count) -/
  | timeoutMessages : Nat → Nat → Err
  /-- the `ValueError` raised on a failed subscription; carries the error detail -/
  | subscriptionFailed : Json → Err

/-- Which errors are timeouts (the spec's `OperationTimeout`). -/
def Err.isTimeout : Err → Bool
  | .socketTimeout => true
  | .timeoutMethod _ => true
  | .timeoutMessages _ _ => true
  | _ => false

/-- A raw inbound frame: either well-formed JSON or malformed text. -/
inductive Raw where
  | json : Json → Raw
  | malformed : Raw

/-- Python `json.loads` on a raw frame. -/
def Raw.parse : Raw → Except Err Json
  | .json j => .ok j
  | .malformed => .error .decodeError

/-- One inbound event: arrival time (ticks since session start) and payload. -/
structure InEvent where
  at_ : Nat
  raw : Raw

/-- The underlying `websocket.WebSocket` connection: its socket timeout
setting (`gettimeout`/`settimeout`), the pending inbound events, and a
log of frames sent. -/
structure Conn where
  timeout : Nat
  stream : List InEvent
  sent : List Json

/-- Blocking `ws.recv()` at time `now`: delivers the next pending event
if it arrives within the socket timeout, else raises a socket timeout
once the timeout has elapsed. Returns (result, connection, new time). -/
def Conn.recv (c : Conn) (now : Nat) : Except Err Raw × Conn × Nat :=
  match c.stream with
  | [] => (.error .socketTimeout, c, now + c.timeout)
  | e :: rest =>
      if e.at_ ≤ now + c.timeout then
        (.ok e.raw, { c with stream := rest }, max now e.at_)
      else
        (.error .socketTimeout, c, now + c.timeout)

/-- The `KrakenWebSocketClient` state: configured operation timeout,
optional connection handle, and the (never written) message buffer. -/
structure Session where
  timeout : Nat
  ws : Option Conn
  messages : List Json

/-- Python `timeout or self.timeout`: Python `or` falls back on falsy values,
so both `None` and `0` select the configured default. -/
def pyOrTimeout (t : Option Nat) (dflt : Nat) : Nat :=
  match t with
  | none => dflt
  | some v => if v = 0 then dflt else v

/-- The method `KrakenWebSocketClient.disconnect`: closes and clears the handle if
present, otherwise does nothing. -/
def Session.disconnect (s : Session) : Session :=
  match s.ws with
  | some _ => { s with ws := none }
  | none => s

/-- The method `KrakenWebSocketClient.receive_message`: raises `RuntimeError` when
not connected; otherwise temporarily overrides the socket timeout (when
an override is given), receives one frame, parses it, and restores the
original socket timeout in a `finally` block on every path. -/
def Session.receive_message (s : Session) (now : Nat) (timeout : Option Nat) :
    Except Err Json × Session × Nat :=
  match s.ws with
  | none => (.error .runtimeNotConnected, s, now)
  | some ws =>
      let original := ws.timeout
      let ws1 := match timeout with
                 | some t => { ws with timeout := t }
                 | none => ws
      let out := ws1.recv now
      let ws3 : Conn := { out.2.1 with timeout := original }
      let res : Except Err Json :=
        match out.1 with
        | .error e => .error e
        | .ok raw => raw.parse
      (res, { s with ws := some ws3 }, out.2.2)

/-- Sending `self.ws.send(json.dumps(request))`: record the outbound frame. -/
def Conn.send (c : Conn) (j : Json) : Conn :=
  { c with sent := c.sent ++ [j] }

/-- Python `dict.update`: existing keys keep their position and take the
new value; keys not yet present are appended in order. -/
def dictUpdate (base upd : List (String × Json)) : List (String × Json) :=
  base.map (fun kv =>
    match upd.find? (fun kv2 => kv2.1 == kv.1) with
    | some kv2 => (kv.1, kv2.2)
    | none => kv) ++
  upd.filter (fun kv2 => !(base.any (fun kv => kv.1 == kv2.1)))

/-- Python `d.get(k) == "s"`: true exactly when the value at `k` is
the string `s`. -/
def isStrVal (o : Option Json) (s : String) : Bool :=
  match o with
  | some (.str t) => t == s
  | _ => false

/-- Number of pending inbound events (0 when disconnected); an upper
bound on the receive-loop iterations, used as fuel. -/
def Session.streamLen (s : Session) : Nat :=
  match s.ws with
  | some ws => ws.stream.length
  | none => 0

/-- The `while True` loop body of `_wait_for_method`, fuelled.  Each
recursive step has consumed one inbound event, so any fuel above the
pending-stream length is never exhausted. -/
def waitForMethodLoop (fuel : Nat) (s : Session) (start now : Nat)
    (method : String) (effT : Nat) : Except Err Json × Session × Nat :=
  match fuel with
  | 0 => (.error (.timeoutMethod method), s, now)
  | fuel + 1 =>
      let elapsed := now - start
      if effT < elapsed then
        (.error (.timeoutMethod method), s, now)
      else
        let remaining := effT - elapsed
        let out := s.receive_message now (some remaining)
        match out.1 with
        | .error e => (.error e, out.2.1, out.2.2)
        | .ok msg =>
            if isStrVal (msg.get? "method") method then (.ok msg, out.2.1, out.2.2)
            else waitForMethodLoop fuel out.2.1 start out.2.2 method effT

/-- The method `KrakenWebSocketClient._wait_for_method`: poll `receive_message`
with the remaining deadline until a dict with the requested `method`
tag arrives; `TimeoutError` once the deadline has elapsed; any error
raised by `receive_message` propagates. -/
def Session.wait_for_method (s : Session) (now : Nat) (method : String)
    (timeout : Option Nat) : Except Err Json × Session × Nat :=
  waitForMethodLoop (s.streamLen + 1) s now now method (pyOrTimeout timeout s.timeout)

/-- The method `KrakenWebSocketClient.subscribe`: requires a connection, sends the
v2 subscribe request, waits for the `subscribe` acknowledgment, raises
`ValueError` with the acknowledgment's error detail when its success
flag is falsy, and returns the acknowledgment otherwise. -/
def Session.subscribe (s : Session) (now : Nat) (channel : String)
    (symbol : List String) (options : List (String × Json)) :
    Except Err Json × Session × Nat :=
  match s.ws with
  | none => (.error .runtimeNotConnected, s, now)
  | some ws =>
      let params := dictUpdate
        [("channel", .str channel), ("symbol", .arr (symbol.map .str))] options
      let request := Json.obj [("method", .str "subscribe"), ("params", .obj params)]
      let s1 : Session := { s with ws := some (ws.send request) }
      let out := s1.wait_for_method now "subscribe" none
      match out.1 with
      | .error e => (.error e, out.2.1, out.2.2)
      | .ok ack =>
          if !(Json.truthyOpt (ack.get? "success")) then
            (.error (.subscriptionFailed (ack.getD "error" (.str "Unknown error"))),
             out.2.1, out.2.2)
          else
            (.ok ack, out.2.1, out.2.2)

/-- The method `KrakenWebSocketClient.unsubscribe`: requires a connection, sends
the v2 unsubscribe request, waits for the `unsubscribe` acknowledgment
and returns it.  (The source performs no success-flag check here.) -/
def Session.unsubscribe (s : Session) (now : Nat) (channel : String)
    (symbol : List String) (options : List (String × Json)) :
    Except Err Json × Session × Nat :=
  match s.ws with
  | none => (.error .runtimeNotConnected, s, now)
  | some ws =>
      let params := dictUpdate
        [("channel", .str channel), ("symbol", .arr (symbol.map .str))] options
      let request := Json.obj [("method", .str "unsubscribe"), ("params", .obj params)]
      let s1 : Session := { s with ws := some (ws.send request) }
      s1.wait_for_method now "unsubscribe" none

/-- True when `receive_messages` silently discards the message:
heartbeat channel, status channel, or a subscribe/unsubscribe
acknowledgment. -/
def isFiltered (msg : Json) : Bool :=
  isStrVal (msg.get? "channel") "heartbeat" ||
  isStrVal (msg.get? "channel") "status" ||
  isStrVal (msg.get? "method") "subscribe" ||
  isStrVal (msg.get? "method") "unsubscribe"

/-- The `while len(messages) < count` loop of `receive_messages`,
fuelled; each recursive step has consumed one inbound event. -/
def receiveMessagesLoop (fuel : Nat) (s : Session) (start now : Nat)
    (count : Nat) (effT : Nat) (acc : List Json) :
    Except Err (List Json) × Session × Nat :=
  match fuel with
  | 0 => (.ok acc, s, now)
  | fuel + 1 =>
      if acc.length < count then
        let elapsed := now - start
        if effT < elapsed then
          (.error (.timeoutMessages acc.length count), s, now)
        else
          let remaining := effT - elapsed
          let out := s.receive_message now (some remaining)
          match out.1 with
          | .ok msg =>
              if isFiltered msg then
                receiveMessagesLoop fuel out.2.1 start out.2.2 count effT acc
              else
                receiveMessagesLoop fuel out.2.1 start out.2.2 count effT (acc ++ [msg])
          | .error e =>
              if 0 < acc.length then (.ok acc, out.2.1, out.2.2)
              else (.error e, out.2.1, out.2.2)
      else (.ok acc, s, now)

/-- The method `KrakenWebSocketClient.receive_messages`: collect up to `count`
messages under one aggregate deadline, discarding control-plane noise;
on any receive error, return the partial list when at least one message
was collected, else re-raise. -/
def Session.receive_messages (s : Session) (now : Nat) (count : Nat)
    (timeout : Option Nat) : Except Err (List Json) × Session × Nat :=
  receiveMessagesLoop (s.streamLen + 1) s now now count (pyOrTimeout timeout s.timeout) []

/-- One order-book level of a book message; `price` and `qty` hold the
decimal string representations (`str(...)` in Python). -/
structure Level where
  price : String
  qty : String

/-- Python `str.replace` removing every dot: remove every decimal point. -/
def stripDot (s : String) : String :=
  ⟨s.data.filter (fun c => c != '.')⟩

/-- Python `encode` to UTF-8 bytes, restricted to the ASCII strings the checksum
builds: one byte per character. -/
def asciiBytes (s : String) : List Nat :=
  s.data.map Char.toNat

/-- One shift step of the reflected CRC-32 polynomial `0xEDB88320`. -/
def crc32Step (crc : Nat) : Nat :=
  if crc % 2 = 1 then (crc / 2) ^^^ 0xEDB88320 else crc / 2

/-- Feed one byte into the CRC-32 accumulator. -/
def crc32Update (crc b : Nat) : Nat :=
  crc32Step^[8] (crc ^^^ (b % 256))

/-- Python `zlib.crc32` over a byte sequence. -/
def crc32 (bytes : List Nat) : Nat :=
  (bytes.foldl crc32Update 0xFFFFFFFF) ^^^ 0xFFFFFFFF

/-- The function `calculate_book_checksum` from `src/tests/test_book.py`: take the
top `depth` levels of each side, then for each level index append the
ask's price and qty strings (when that side still has a level) followed
by the bid's, decimal points removed; join, CRC-32, mask to 32 bits. -/
def calculate_book_checksum (bids asks : List Level) (depth : Nat) : Nat :=
  let top_bids := bids.take depth
  let top_asks := asks.take depth
  let parts := (List.range (max top_asks.length top_bids.length)).flatMap (fun i =>
    (match top_asks.get? i with
     | some ask => [stripDot ask.price, stripDot ask.qty]
     | none => []) ++
    (match top_bids.get? i with
     | some bid => [stripDot bid.price, stripDot bid.qty]
     | none => []))
  let checksum_string := String.join parts
  crc32 (asciiBytes checksum_string) % 4294967296

/-- The spec's wording of the checksum string: interleave, level by
level, each ask's price and qty string followed by each bid's, with
decimal points removed. -/
def specInterleave : List Level → List Level → String
  | [], [] => ""
  | a :: xs, [] => stripDot a.price ++ stripDot a.qty ++ specInterleave xs []
  | [], b :: ys => stripDot b.price ++ stripDot b.qty ++ specInterleave [] ys
  | a :: xs, b :: ys =>
      stripDot a.price ++ stripDot a.qty ++ stripDot b.price ++ stripDot b.qty ++
      specInterleave xs ys

/-- The checksum described by the spec: CRC-32 of the interleaved
string over the top `depth` levels. -/
def spec_book_checksum (bids asks : List Level) (depth : Nat) : Nat :=
  crc32 (asciiBytes (specInterleave (asks.take depth) (bids.take depth)))

/-- The checksum-validation step of
`TestBookChannel.test_book_data_integrity_constraints`: it asserts the
received checksum is a positive integer and computes the recomputed
checksum, but the equality comparison is commented out, so the outcome
depends only on the received value. -/
def checksumCheckPasses (received : Int) (bids asks : List Level) : Bool :=
  let _calculated := calculate_book_checksum bids asks 10
  decide (0 < received)

/-- A failed subscribe acknowledgment used as concrete input. -/
def sampleAckFail : Json :=
  .obj [("method", .str "subscribe"), ("success", .bool false),
        ("error", .str "Currency pair not supported")]

/-- A successful subscribe acknowledgment echoing channel "ticker". -/
def sampleAckOk : Json :=
  .obj [("method", .str "subscribe"), ("success", .bool true),
        ("result", .obj [("channel", .str "ticker"),
                         ("symbol", .arr [.str "BTC/USD"])])]

/-- A heartbeat frame. -/
def sampleHeartbeat : Json := .obj [("channel", .str "heartbeat")]

/-- A failed unsubscribe acknowledgment used as concrete input. -/
def sampleUnsubAckFail : Json :=
  .obj [("method", .str "unsubscribe"), ("success", .bool false),
        ("error", .str "Subscription Not Found")]

/-- A ticker data message used as concrete input. -/
def sampleData1 : Json :=
  .obj [("channel", .str "ticker"), ("type", .str "snapshot"),
        ("data", .arr [.obj [("symbol", .str "BTC/USD")]])]

/-- A second ticker data message used as concrete input. -/
def sampleData2 : Json :=
  .obj [("channel", .str "ticker"), ("type", .str "update"),
        ("data", .arr [.obj [("symbol", .str "BTC/USD")]])]

/-- A status frame. -/
def sampleStatus : Json :=
  .obj [("channel", .str "status"), ("type", .str "update")]

/-- The data messages among a list of events: well-formed payloads that
pass the control-plane filter, in order. -/
def keptOf (evs : List InEvent) : List Json :=
  evs.filterMap (fun ev => match ev.raw with
    | .json j => if isFiltered j then none else some j
    | .malformed => none)

/-- The list of checksum parts built by `calculate_book_checksum`'s
loop, for already-truncated sides (asks first, then bids, per index). -/
def codeParts (A B : List Level) : List String :=
  (List.range (max A.length B.length)).flatMap (fun i =>
    (match A.get? i with
     | some ask => [stripDot ask.price, stripDot ask.qty]
     | none => []) ++
    (match B.get? i with
     | some bid => [stripDot bid.price, stripDot bid.qty]
     | none => []))

/-- C10: on a session with no connection, `subscribe`, `unsubscribe`
and `receive_message` raise `RuntimeError` immediately, leaving the
session state and clock untouched (so nothing was sent or received),
and `disconnect` is a no-op. -/
theorem claim_C10_absent_connection (s : Session) (now : Nat) (channel : String)
    (symbol : List String) (options : List (String × Json)) (tmo : Option Nat)
    (hws : s.ws = none) :
    s.subscribe now channel symbol options = (.error .runtimeNotConnected, s, now) ∧
    s.unsubscribe now channel symbol options = (.error .runtimeNotConnected, s, now) ∧
    s.receive_message now tmo = (.error .runtimeNotConnected, s, now) ∧
    s.disconnect = s := by
  obtain ⟨t, w, m⟩ := s
  cases hws
  exact ⟨rfl, rfl, rfl, rfl⟩

/-- Witness for C10 at a concrete never-connected session. -/
theorem claim_C10_witness :
    (Session.mk 30 none []).subscribe 0 "ticker" ["BTC/USD"] [] =
      (.error .runtimeNotConnected, Session.mk 30 none [], 0) ∧
    (Session.mk 30 none []).unsubscribe 0 "ticker" ["BTC/USD"] [] =
      (.error .runtimeNotConnected, Session.mk 30 none [], 0) ∧
    (Session.mk 30 none []).receive_message 0 (some 5) =
      (.error .runtimeNotConnected, Session.mk 30 none [], 0) ∧
    (Session.mk 30 none []).disconnect = Session.mk 30 none [] :=
  claim_C10_absent_connection (Session.mk 30 none []) 0 "ticker" ["BTC/USD"] [] (some 5) rfl

/-- C9: on a connected session, `receive_message` with any timeout
override leaves the connection's socket-timeout setting unchanged,
whether it returns a message or raises (receive failure or decode
failure): the `finally` block always restores the original value. -/
theorem claim_C9_timeout_restored (s : Session) (ws : Conn) (now : Nat)
    (tmo : Option Nat) (hws : s.ws = some ws) :
    ∃ ws1 : Conn, ((s.receive_message now tmo).2.1).ws = some ws1 ∧
      ws1.timeout = ws.timeout := by
  obtain ⟨t, w, m⟩ := s
  cases hws
  exact ⟨_, rfl, rfl⟩

/-- Inside the deadline window, `_wait_for_method` skips well-formed
messages that do not carry the requested method tag and returns the
first one that does. -/
theorem waitForMethodLoop_finds (pre : List InEvent) :
    ∀ (fuel : Nat) (t : Nat) (m : List Json) (wt : Nat) (snt : List Json)
      (start now : Nat) (method : String) (T : Nat)
      (e : InEvent) (rest : List InEvent) (ack : Json),
    pre.length + 1 ≤ fuel →
    start ≤ now → now ≤ start + T →
    (∀ ev ∈ pre, ev.at_ ≤ start + T ∧
      ∃ j, ev.raw = .json j ∧ isStrVal (j.get? "method") method = false) →
    e.at_ ≤ start + T → e.raw = .json ack →
    isStrVal (ack.get? "method") method = true →
    (waitForMethodLoop fuel
        (Session.mk t (some (Conn.mk wt (pre ++ e :: rest) snt)) m)
        start now method T).1 = .ok ack := by
  induction pre with
  | nil =>
      intro fuel t m wt snt start now method T e rest ack hfuel h1 h2 _ he heraw hm
      match fuel, hfuel with
      | fuel + 1, _ =>
        simp only [waitForMethodLoop]
        rw [if_neg (by omega : ¬ T < now - start)]
        simp only [Session.receive_message, Conn.recv, List.nil_append]
        rw [if_pos (by omega : e.at_ ≤ now + (T - (now - start)))]
        rw [heraw]
        simp only [Raw.parse, hm, if_true]
  | cons ev pre ih =>
      intro fuel t m wt snt start now method T e rest ack hfuel h1 h2 hpre he heraw hm
      obtain ⟨hat, j, hraw, hnm⟩ := hpre ev (List.mem_cons_self ev pre)
      match fuel, hfuel with
      | fuel + 1, hf =>
        simp only [waitForMethodLoop]
        rw [if_neg (by omega : ¬ T < now - start)]
        simp only [Session.receive_message, Conn.recv, List.cons_append]
        rw [if_pos (by omega : ev.at_ ≤ now + (T - (now - start)))]
        rw [hraw]
        simp only [Raw.parse, hnm, if_false]
        exact ih fuel t m wt snt start (max now ev.at_) method T e rest ack
          (by simp only [List.length_cons] at hf; omega) (by omega) (by omega)
          (fun x hx => hpre x (List.mem_cons_of_mem ev hx)) he heraw hm

/-- C2: when the first method-"subscribe" message within the deadline
window is the acknowledgment `ack`, `subscribe` raises
`SubscriptionRejected` carrying `ack`'s error detail if `ack`'s success
flag is false, and returns `ack` itself if the flag is true. -/
theorem claim_C2_rejection_surfacing
    (t : Nat) (m : List Json) (wt : Nat) (snt : List Json)
    (pre rest : List InEvent) (e : InEvent) (ack : Json) (now : Nat)
    (channel : String) (symbol : List String) (options : List (String × Json))
    (hpre : ∀ ev ∈ pre, ev.at_ ≤ now + t ∧
      ∃ j, ev.raw = .json j ∧ isStrVal (j.get? "method") "subscribe" = false)
    (he : e.at_ ≤ now + t) (heraw : e.raw = .json ack)
    (hm : isStrVal (ack.get? "method") "subscribe" = true) :
    (Json.truthyOpt (ack.get? "success") = false →
      ((Session.mk t (some (Conn.mk wt (pre ++ e :: rest) snt)) m).subscribe
          now channel symbol options).1 =
        .error (.subscriptionFailed (ack.getD "error" (.str "Unknown error")))) ∧
    (Json.truthyOpt (ack.get? "success") = true →
      ((Session.mk t (some (Conn.mk wt (pre ++ e :: rest) snt)) m).subscribe
          now channel symbol options).1 = .ok ack) := by
  have hwait : ∀ snt' : List Json,
      (Session.wait_for_method
        (Session.mk t (some (Conn.mk wt (pre ++ e :: rest) snt')) m)
        now "subscribe" none).1 = .ok ack := by
    intro snt'
    exact waitForMethodLoop_finds pre _ t m wt snt' now now "subscribe" t e rest ack
      (by simp only [Session.streamLen, List.length_append, List.length_cons]; omega)
      le_rfl (by omega) hpre he heraw hm
  constructor
  · intro hsucc
    simp only [Session.subscribe, Conn.send]
    rw [hwait _]
    simp [hsucc]
  · intro hsucc
    simp only [Session.subscribe, Conn.send]
    rw [hwait _]
    simp [hsucc]

/-- Witness for C2 at a concrete rejected subscription. -/
theorem claim_C2_witness :
    ((Session.mk 30 (some (Conn.mk 30 [InEvent.mk 2 (Raw.json sampleAckFail)] [])) []).subscribe
        0 "ticker" ["BTC/USD"] []).1 =
      .error (.subscriptionFailed (.str "Currency pair not supported")) :=
  (claim_C2_rejection_surfacing 30 [] 30 [] [] [] (InEvent.mk 2 (Raw.json sampleAckFail))
      sampleAckFail 0 "ticker" ["BTC/USD"] []
      (fun ev h => absurd h (List.not_mem_nil ev))
      (by decide) rfl rfl).1 rfl

/-- C6: for a subscribe call followed by its acknowledgment (a
well-formed message whose method tag is "subscribe", whose success flag
is truthy, and whose result echoes the requested channel), `subscribe`
returns exactly that acknowledgment: it has method "subscribe" and its
result's channel is the requested channel. -/
theorem claim_C6_correlation
    (t : Nat) (m : List Json) (wt : Nat) (snt : List Json)
    (pre rest : List InEvent) (e : InEvent) (ack : Json) (now : Nat)
    (channel : String) (symbol : List String) (options : List (String × Json))
    (hpre : ∀ ev ∈ pre, ev.at_ ≤ now + t ∧
      ∃ j, ev.raw = .json j ∧ isStrVal (j.get? "method") "subscribe" = false)
    (he : e.at_ ≤ now + t) (heraw : e.raw = .json ack)
    (hmeth : ack.get? "method" = some (.str "subscribe"))
    (hsucc : Json.truthyOpt (ack.get? "success") = true)
    (hecho : (ack.get? "result").bind (fun r => r.get? "channel") =
      some (.str channel)) :
    ∃ a : Json,
      ((Session.mk t (some (Conn.mk wt (pre ++ e :: rest) snt)) m).subscribe
          now channel symbol options).1 = .ok a ∧
      a.get? "method" = some (.str "subscribe") ∧
      (a.get? "result").bind (fun r => r.get? "channel") = some (.str channel) := by
  have hm : isStrVal (ack.get? "method") "subscribe" = true := by
    rw [hmeth]; rfl
  have hwait : ∀ snt' : List Json,
      (Session.wait_for_method
        (Session.mk t (some (Conn.mk wt (pre ++ e :: rest) snt')) m)
        now "subscribe" none).1 = .ok ack := by
    intro snt'
    exact waitForMethodLoop_finds pre _ t m wt snt' now now "subscribe" t e rest ack
      (by simp only [Session.streamLen, List.length_append, List.length_cons]; omega)
      le_rfl (by omega) hpre he heraw hm
  refine ⟨ack, ?_, hmeth, hecho⟩
  simp only [Session.subscribe, Conn.send]
  rw [hwait _]
  simp [hsucc]

/-- Witness for C6: heartbeat noise then the acknowledgment. -/
theorem claim_C6_witness :
    ∃ a : Json,
      ((Session.mk 30 (some (Conn.mk 30
          [InEvent.mk 1 (Raw.json sampleHeartbeat),
           InEvent.mk 2 (Raw.json sampleAckOk)] [])) []).subscribe
          0 "ticker" ["BTC/USD"] []).1 = .ok a ∧
      a.get? "method" = some (.str "subscribe") ∧
      (a.get? "result").bind (fun r => r.get? "channel") = some (.str "ticker") :=
  claim_C6_correlation 30 [] 30 [] [InEvent.mk 1 (Raw.json sampleHeartbeat)] []
    (InEvent.mk 2 (Raw.json sampleAckOk)) sampleAckOk 0 "ticker" ["BTC/USD"] []
    (by intro ev hev
        simp only [List.mem_singleton] at hev
        subst hev
        exact ⟨by decide, sampleHeartbeat, rfl, rfl⟩)
    (by decide) rfl rfl rfl rfl

/-- Counterexample to C1: a concrete session whose unsubscribe
acknowledgment has success=false, on which `unsubscribe` returns the
acknowledgment as a success value instead of raising. -/
theorem claim_C1_counterexample :
    ((Session.mk 30 (some (Conn.mk 30
        [InEvent.mk 1 (Raw.json sampleUnsubAckFail)] [])) []).unsubscribe
        0 "ticker" ["BTC/USD"] []).1 = .ok sampleUnsubAckFail ∧
    Json.truthyOpt (sampleUnsubAckFail.get? "success") = false := by
  exact ⟨rfl, rfl⟩

/-- C1 as amended: `unsubscribe` correlates on method "unsubscribe" and
returns the first matching acknowledgment unconditionally; it performs
no success-flag validation, so an acknowledgment with success=false is
returned, not raised. -/
theorem claim_C1_unsubscribe_no_validation
    (t : Nat) (m : List Json) (wt : Nat) (snt : List Json)
    (pre rest : List InEvent) (e : InEvent) (ack : Json) (now : Nat)
    (channel : String) (symbol : List String) (options : List (String × Json))
    (hpre : ∀ ev ∈ pre, ev.at_ ≤ now + t ∧
      ∃ j, ev.raw = .json j ∧ isStrVal (j.get? "method") "unsubscribe" = false)
    (he : e.at_ ≤ now + t) (heraw : e.raw = .json ack)
    (hm : isStrVal (ack.get? "method") "unsubscribe" = true) :
    ((Session.mk t (some (Conn.mk wt (pre ++ e :: rest) snt)) m).unsubscribe
        now channel symbol options).1 = .ok ack := by
  have hwait : ∀ snt' : List Json,
      (Session.wait_for_method
        (Session.mk t (some (Conn.mk wt (pre ++ e :: rest) snt')) m)
        now "unsubscribe" none).1 = .ok ack := by
    intro snt'
    exact waitForMethodLoop_finds pre _ t m wt snt' now now "unsubscribe" t e rest ack
      (by simp only [Session.streamLen, List.length_append, List.length_cons]; omega)
      le_rfl (by omega) hpre he heraw hm
  simp only [Session.unsubscribe, Conn.send]
  exact hwait _

/-- Witness for the amended C1 at a concrete failed acknowledgment. -/
theorem claim_C1_witness :
    ((Session.mk 25 (some (Conn.mk 25
        [InEvent.mk 0 (Raw.json sampleHeartbeat),
         InEvent.mk 3 (Raw.json sampleUnsubAckFail)] [])) []).unsubscribe
        0 "book" ["ETH/USD"] []).1 = .ok sampleUnsubAckFail :=
  claim_C1_unsubscribe_no_validation 25 [] 25 [] [InEvent.mk 0 (Raw.json sampleHeartbeat)] []
    (InEvent.mk 3 (Raw.json sampleUnsubAckFail)) sampleUnsubAckFail 0 "book" ["ETH/USD"] []
    (by intro ev hev
        simp only [List.mem_singleton] at hev
        subst hev
        exact ⟨by decide, sampleHeartbeat, rfl, rfl⟩)
    (by decide) rfl rfl

/-- Invariant of the receive loop: every message it returns passed the
control-plane filter (holds for arbitrary streams, malformed frames
included). -/
theorem receiveMessagesLoop_only_data (fuel : Nat) :
    ∀ (s : Session) (start now count effT : Nat) (acc l : List Json),
    (∀ x ∈ acc, isFiltered x = false) →
    (receiveMessagesLoop fuel s start now count effT acc).1 = .ok l →
    ∀ x ∈ l, isFiltered x = false := by
  induction fuel with
  | zero =>
      intro s start now count effT acc l hacc hrun
      simp only [receiveMessagesLoop] at hrun
      cases hrun
      exact hacc
  | succ fuel ih =>
      intro s start now count effT acc l hacc hrun
      simp only [receiveMessagesLoop] at hrun
      by_cases h1 : acc.length < count
      · rw [if_pos h1] at hrun
        by_cases h2 : effT < now - start
        · rw [if_pos h2] at hrun
          cases hrun
        · rw [if_neg h2] at hrun
          split at hrun
          · split at hrun
            · exact ih _ _ _ _ _ _ _ hacc hrun
            · rename_i msg hmsg hflt
              refine ih _ _ _ _ _ _ _ ?_ hrun
              intro x hx
              rcases List.mem_append.1 hx with hx | hx
              · exact hacc x hx
              · rcases List.mem_singleton.1 hx with rfl
                exact Bool.eq_false_iff.2 hflt
          · split at hrun
            · cases hrun
              exact hacc
            · cases hrun
      · rw [if_neg h1] at hrun
        cases hrun
        exact hacc

/-- C4: whatever the inbound interleaving, any list of messages
returned by `receive_messages` contains only data messages: no element
has channel "heartbeat" or "status", and none carries a "subscribe" or
"unsubscribe" method tag. -/
theorem claim_C4_data_only (s : Session) (now count : Nat) (tmo : Option Nat)
    (l : List Json)
    (hrun : (s.receive_messages now count tmo).1 = .ok l) :
    ∀ x ∈ l, isStrVal (x.get? "channel") "heartbeat" = false ∧
      isStrVal (x.get? "channel") "status" = false ∧
      isStrVal (x.get? "method") "subscribe" = false ∧
      isStrVal (x.get? "method") "unsubscribe" = false := by
  simp only [Session.receive_messages] at hrun
  have h := receiveMessagesLoop_only_data _ _ _ _ _ _ _ _
    (fun x hx => absurd hx (List.not_mem_nil x)) hrun
  intro x hx
  have hf := h x hx
  simp only [isFiltered, Bool.or_eq_false_iff] at hf
  exact ⟨hf.1.1.1, hf.1.1.2, hf.1.2, hf.2⟩

/-- Witness for C4 on a stream interleaving heartbeat, status, a
subscribe acknowledgment and data messages. -/
theorem claim_C4_witness :
    isStrVal (sampleData1.get? "channel") "heartbeat" = false ∧
    isStrVal (sampleData1.get? "channel") "status" = false ∧
    isStrVal (sampleData1.get? "method") "subscribe" = false ∧
    isStrVal (sampleData1.get? "method") "unsubscribe" = false :=
  claim_C4_data_only
    (Session.mk 30 (some (Conn.mk 30
      [InEvent.mk 1 (Raw.json sampleHeartbeat),
       InEvent.mk 2 (Raw.json sampleAckOk),
       InEvent.mk 3 (Raw.json sampleData1),
       InEvent.mk 4 (Raw.json sampleStatus),
       InEvent.mk 5 (Raw.json sampleData2)] [])) [])
    0 2 (some 30) [sampleData1, sampleData2] rfl
    sampleData1 (by simp)

/-- Behaviour of the receive loop over a deadline window: it consumes
the well-formed events within the window, collecting exactly their data
messages; when the stream then stops (end of stream, next event beyond
the deadline, or a malformed frame inside the window) it returns the
collected messages when there are any, and otherwise raises the
stopping error (socket timeout, or the decode error). -/
theorem receiveMessagesLoop_window (evs : List InEvent) :
    ∀ (fuel t : Nat) (m : List Json) (wt : Nat) (snt : List Json)
      (tail : List InEvent) (start now count T : Nat) (acc : List Json)
      (stopErr : Err),
    evs.length + 1 ≤ fuel →
    start ≤ now → now ≤ start + T →
    (∀ ev ∈ evs, ev.at_ ≤ start + T ∧ ∃ j, ev.raw = .json j) →
    acc.length + (keptOf evs).length < count →
    ((tail = [] ∧ stopErr = .socketTimeout) ∨
     (∃ e' rest', tail = e' :: rest' ∧ start + T < e'.at_ ∧
        stopErr = .socketTimeout) ∨
     (∃ a rest', tail = InEvent.mk a .malformed :: rest' ∧ a ≤ start + T ∧
        stopErr = .decodeError)) →
    (acc ++ keptOf evs = [] →
      (receiveMessagesLoop fuel
          (Session.mk t (some (Conn.mk wt (evs ++ tail) snt)) m)
          start now count T acc).1 = .error stopErr) ∧
    (acc ++ keptOf evs ≠ [] →
      (receiveMessagesLoop fuel
          (Session.mk t (some (Conn.mk wt (evs ++ tail) snt)) m)
          start now count T acc).1 = .ok (acc ++ keptOf evs)) := by
  induction evs with
  | nil =>
      intro fuel t m wt snt tail start now count T acc stopErr hfuel h1 h2 _ hcount htail
      match fuel, hfuel with
      | fuel + 1, _ =>
        simp only [keptOf, List.filterMap_nil, List.length_nil, List.append_nil]
          at hcount ⊢
        have hcnt : acc.length < count := by omega
        have hc1 : ¬ T < now - start := by omega
        simp only [receiveMessagesLoop, List.nil_append, hcnt, if_true, hc1, if_false]
        rcases htail with ⟨rfl, rfl⟩ | ⟨e', rest', rfl, hgt, rfl⟩ |
          ⟨a, rest', rfl, hle, rfl⟩
        · simp only [Session.receive_message, Conn.recv]
          constructor
          · intro hE
            rw [if_neg (by simp [List.length_eq_zero.2 hE] : ¬ 0 < acc.length)]
          · intro hNE
            rw [if_pos (List.length_pos.2 hNE)]
        · have hc2 : ¬ e'.at_ ≤ now + (T - (now - start)) := by omega
          simp only [Session.receive_message, Conn.recv, hc2, if_false]
          constructor
          · intro hE
            rw [if_neg (by simp [List.length_eq_zero.2 hE] : ¬ 0 < acc.length)]
          · intro hNE
            rw [if_pos (List.length_pos.2 hNE)]
        · have hc2 : a ≤ now + (T - (now - start)) := by omega
          simp only [Session.receive_message, Conn.recv, hc2, if_true, Raw.parse]
          constructor
          · intro hE
            rw [if_neg (by simp [List.length_eq_zero.2 hE] : ¬ 0 < acc.length)]
          · intro hNE
            rw [if_pos (List.length_pos.2 hNE)]
  | cons ev evs ih =>
      intro fuel t m wt snt tail start now count T acc stopErr hfuel h1 h2 hwin hcount htail
      obtain ⟨hat, j, hraw⟩ := hwin ev (List.mem_cons_self ev evs)
      match fuel, hfuel with
      | fuel + 1, hf =>
        have hfuel' : evs.length + 1 ≤ fuel := by
          simp only [List.length_cons] at hf; omega
        have hwin' : ∀ x ∈ evs, x.at_ ≤ start + T ∧ ∃ j, x.raw = .json j :=
          fun x hx => hwin x (List.mem_cons_of_mem ev hx)
        have hc1 : ¬ T < now - start := by omega
        have hc2 : ev.at_ ≤ now + (T - (now - start)) := by omega
        by_cases hflt : isFiltered j = true
        · have hkept : keptOf (ev :: evs) = keptOf evs := by
            simp [keptOf, List.filterMap_cons, hraw, hflt]
          rw [hkept] at hcount ⊢
          have hcnt : acc.length < count := by omega
          simp only [receiveMessagesLoop, List.cons_append, hcnt, if_true, hc1,
            if_false, Session.receive_message, Conn.recv, hc2, hraw, Raw.parse,
            hflt]
          exact ih fuel t m wt snt tail start (max now ev.at_) count T acc stopErr
            hfuel' (by omega) (by omega) hwin' hcount htail
        · have hkept : keptOf (ev :: evs) = j :: keptOf evs := by
            simp [keptOf, List.filterMap_cons, hraw, hflt]
          rw [hkept] at hcount ⊢
          have hcnt : acc.length < count := by
            simp only [List.length_cons] at hcount; omega
          simp only [receiveMessagesLoop, List.cons_append, hcnt, if_true, hc1,
            if_false, Session.receive_message, Conn.recv, hc2, hraw, Raw.parse,
            hflt]
          have hrec := ih fuel t m wt snt tail start (max now ev.at_) count T
            (acc ++ [j]) stopErr hfuel' (by omega) (by omega) hwin'
            (by simp only [List.length_append, List.length_cons, List.length_nil]
                  at hcount ⊢
                omega)
            htail
          constructor
          · intro hE
            exact absurd hE (by simp)
          · intro _
            rw [if_neg (show ¬ (false = true) by simp)]
            have h2' := hrec.2 (by simp)
            rw [h2']
            simp

/-- C3: when the window up to the deadline contains well-formed events
whose data messages number `k` with `0 < k < count` (followed by end of
stream or an event arriving after the deadline), `receive_messages`
returns exactly those `k` data messages, in order, instead of raising a
timeout. -/
theorem claim_C3_partial_results
    (t : Nat) (m : List Json) (wt : Nat) (snt : List Json)
    (evs tail : List InEvent) (now count : Nat) (tmo : Option Nat)
    (hwin : ∀ ev ∈ evs, ev.at_ ≤ now + pyOrTimeout tmo t ∧ ∃ j, ev.raw = .json j)
    (htail : tail = [] ∨
      ∃ e' rest', tail = e' :: rest' ∧ now + pyOrTimeout tmo t < e'.at_)
    (hk : keptOf evs ≠ [])
    (hn : (keptOf evs).length < count) :
    ((Session.mk t (some (Conn.mk wt (evs ++ tail) snt)) m).receive_messages
        now count tmo).1 = .ok (keptOf evs) := by
  have h := receiveMessagesLoop_window evs ((evs ++ tail).length + 1) t m wt snt
      tail now now count (pyOrTimeout tmo t) [] .socketTimeout
      (by simp only [List.length_append]; omega) le_rfl (by omega) hwin
      (by simpa using hn)
      (by rcases htail with rfl | ⟨e', r', rfl, hgt⟩
          · exact .inl ⟨rfl, rfl⟩
          · exact .inr (.inl ⟨e', r', rfl, hgt, rfl⟩))
  have h2 := h.2 (by simpa using hk)
  simpa [Session.receive_messages, Session.streamLen] using h2

/-- Witness for C3: one data message inside a 10-tick window, a second
arriving only after the deadline; `receive_messages` asked for 3
returns the single collected message. -/
theorem claim_C3_witness :
    ((Session.mk 30 (some (Conn.mk 30
        [InEvent.mk 1 (Raw.json sampleHeartbeat),
         InEvent.mk 2 (Raw.json sampleData1),
         InEvent.mk 50 (Raw.json sampleData2)] [])) []).receive_messages
        0 3 (some 10)).1 = .ok [sampleData1] :=
  claim_C3_partial_results 30 [] 30 []
    [InEvent.mk 1 (Raw.json sampleHeartbeat), InEvent.mk 2 (Raw.json sampleData1)]
    [InEvent.mk 50 (Raw.json sampleData2)] 0 3 (some 10)
    (by intro ev hev
        simp only [List.mem_cons, List.not_mem_nil, or_false] at hev
        rcases hev with rfl | rfl
        · exact ⟨by decide, sampleHeartbeat, rfl⟩
        · exact ⟨by decide, sampleData1, rfl⟩)
    (Or.inr ⟨InEvent.mk 50 (Raw.json sampleData2), [], rfl, by decide⟩)
    (List.cons_ne_nil sampleData1 [])
    (by decide)

/-- C5: when no data message arrives within the deadline window (only
well-formed control-plane noise, followed by end of stream or an event
beyond the deadline), `receive_messages` fails with a timeout error:
it neither returns a value nor keeps waiting. -/
theorem claim_C5_timeout_floor
    (t : Nat) (m : List Json) (wt : Nat) (snt : List Json)
    (evs tail : List InEvent) (now count : Nat) (tmo : Option Nat)
    (hwin : ∀ ev ∈ evs, ev.at_ ≤ now + pyOrTimeout tmo t ∧ ∃ j, ev.raw = .json j)
    (htail : tail = [] ∨
      ∃ e' rest', tail = e' :: rest' ∧ now + pyOrTimeout tmo t < e'.at_)
    (hk : keptOf evs = [])
    (hcount : 0 < count) :
    ((Session.mk t (some (Conn.mk wt (evs ++ tail) snt)) m).receive_messages
        now count tmo).1 = .error .socketTimeout ∧
    Err.isTimeout .socketTimeout = true := by
  have h := receiveMessagesLoop_window evs ((evs ++ tail).length + 1) t m wt snt
      tail now now count (pyOrTimeout tmo t) [] .socketTimeout
      (by simp only [List.length_append]; omega) le_rfl (by omega) hwin
      (by simp [hk]; omega)
      (by rcases htail with rfl | ⟨e', r', rfl, hgt⟩
          · exact .inl ⟨rfl, rfl⟩
          · exact .inr (.inl ⟨e', r', rfl, hgt, rfl⟩))
  have h1 := h.1 (by simp [hk])
  refine ⟨?_, rfl⟩
  simpa [Session.receive_messages, Session.streamLen] using h1

/-- Witness for C5: only heartbeat and status noise inside the window;
the call fails with the socket-level timeout. -/
theorem claim_C5_witness :
    ((Session.mk 30 (some (Conn.mk 30
        [InEvent.mk 1 (Raw.json sampleHeartbeat),
         InEvent.mk 2 (Raw.json sampleStatus)] [])) []).receive_messages
        0 2 (some 10)).1 = .error .socketTimeout ∧
    Err.isTimeout .socketTimeout = true :=
  claim_C5_timeout_floor 30 [] 30 []
    [InEvent.mk 1 (Raw.json sampleHeartbeat), InEvent.mk 2 (Raw.json sampleStatus)]
    [] 0 2 (some 10)
    (by intro ev hev
        simp only [List.mem_cons, List.not_mem_nil, or_false] at hev
        rcases hev with rfl | rfl
        · exact ⟨by decide, sampleHeartbeat, rfl⟩
        · exact ⟨by decide, sampleStatus, rfl⟩)
    (Or.inl rfl) rfl (by decide)

/-- Counterexample to C7: a stream delivering one data message and then
a malformed payload, both inside the window.  `receive_messages`
returns the partial list and the decoding error is silently dropped,
not propagated. -/
theorem claim_C7_counterexample :
    ((Session.mk 30 (some (Conn.mk 30
        [InEvent.mk 1 (Raw.json sampleData1),
         InEvent.mk 2 Raw.malformed] [])) []).receive_messages
        0 2 (some 10)).1 = .ok [sampleData1] := rfl

/-- C7 as amended: `receive_message`, `subscribe` and `unsubscribe`
propagate a decoding error; `receive_messages` propagates it only while
zero data messages have been collected — once at least one has been
collected it discards the error and returns the partial list. -/
theorem claim_C7_decode_error_policy :
    (∀ (t : Nat) (m : List Json) (wt : Nat) (snt : List Json) (a : Nat)
       (rest : List InEvent) (now v : Nat), a ≤ now + v →
       ((Session.mk t (some (Conn.mk wt (InEvent.mk a .malformed :: rest) snt))
           m).receive_message now (some v)).1 = .error .decodeError) ∧
    (∀ (t : Nat) (m : List Json) (wt : Nat) (snt : List Json) (a : Nat)
       (rest : List InEvent) (now : Nat) (channel : String)
       (symbol : List String) (options : List (String × Json)), a ≤ now + t →
       ((Session.mk t (some (Conn.mk wt (InEvent.mk a .malformed :: rest) snt))
           m).subscribe now channel symbol options).1 = .error .decodeError) ∧
    (∀ (t : Nat) (m : List Json) (wt : Nat) (snt : List Json) (a : Nat)
       (rest : List InEvent) (now : Nat) (channel : String)
       (symbol : List String) (options : List (String × Json)), a ≤ now + t →
       ((Session.mk t (some (Conn.mk wt (InEvent.mk a .malformed :: rest) snt))
           m).unsubscribe now channel symbol options).1 = .error .decodeError) ∧
    (∀ (t : Nat) (m : List Json) (wt : Nat) (snt : List Json) (a : Nat)
       (rest : List InEvent) (now count : Nat) (tmo : Option Nat),
       a ≤ now + pyOrTimeout tmo t → 0 < count →
       ((Session.mk t (some (Conn.mk wt (InEvent.mk a .malformed :: rest) snt))
           m).receive_messages now count tmo).1 = .error .decodeError) ∧
    (∀ (t : Nat) (m : List Json) (wt : Nat) (snt : List Json)
       (evs : List InEvent) (a : Nat) (rest : List InEvent) (now count : Nat)
       (tmo : Option Nat),
       (∀ ev ∈ evs, ev.at_ ≤ now + pyOrTimeout tmo t ∧ ∃ j, ev.raw = .json j) →
       a ≤ now + pyOrTimeout tmo t →
       keptOf evs ≠ [] → (keptOf evs).length < count →
       ((Session.mk t (some
           (Conn.mk wt (evs ++ InEvent.mk a .malformed :: rest) snt))
           m).receive_messages now count tmo).1 = .ok (keptOf evs)) := by
  refine ⟨?_, ?_, ?_, ?_, ?_⟩
  · intro t m wt snt a rest now v ha
    have hc : a ≤ now + v := ha
    simp [Session.receive_message, Conn.recv, hc, Raw.parse]
  · intro t m wt snt a rest now channel symbol options ha
    have hc1 : ¬ t < now - now := by omega
    have hc2 : a ≤ now + (t - (now - now)) := by omega
    simp [Session.subscribe, Conn.send, Session.wait_for_method, Session.streamLen,
      pyOrTimeout, waitForMethodLoop, hc1, hc2, ha, Session.receive_message,
      Conn.recv, Raw.parse]
  · intro t m wt snt a rest now channel symbol options ha
    have hc1 : ¬ t < now - now := by omega
    have hc2 : a ≤ now + (t - (now - now)) := by omega
    simp [Session.unsubscribe, Conn.send, Session.wait_for_method, Session.streamLen,
      pyOrTimeout, waitForMethodLoop, hc1, hc2, ha, Session.receive_message,
      Conn.recv, Raw.parse]
  · intro t m wt snt a rest now count tmo ha hcount
    have h := receiveMessagesLoop_window []
        ((InEvent.mk a .malformed :: rest).length + 1) t m wt snt
        (InEvent.mk a .malformed :: rest) now now count (pyOrTimeout tmo t) []
        .decodeError (by simp) le_rfl (by omega)
        (fun ev hev => absurd hev (List.not_mem_nil ev))
        (by simpa [keptOf] using hcount)
        (.inr (.inr ⟨a, rest, rfl, by omega, rfl⟩))
    have h1 := h.1 (by simp [keptOf])
    simpa [Session.receive_messages, Session.streamLen] using h1
  · intro t m wt snt evs a rest now count tmo hwin ha hk hn
    have h := receiveMessagesLoop_window evs
        ((evs ++ InEvent.mk a .malformed :: rest).length + 1) t m wt snt
        (InEvent.mk a .malformed :: rest) now now count (pyOrTimeout tmo t) []
        .decodeError (by simp only [List.length_append]; omega) le_rfl (by omega)
        hwin (by simpa using hn)
        (.inr (.inr ⟨a, rest, rfl, by omega, rfl⟩))
    have h2 := h.2 (by simpa using hk)
    simpa [Session.receive_messages, Session.streamLen] using h2

/-- Witness for the amended C7: the five behaviours at concrete
sessions (malformed frame at tick 1; for the last, a data message then
the malformed frame). -/
theorem claim_C7_witness :
    ((Session.mk 30 (some (Conn.mk 30 [InEvent.mk 1 Raw.malformed] []))
        []).receive_message 0 (some 5)).1 = .error .decodeError ∧
    ((Session.mk 30 (some (Conn.mk 30 [InEvent.mk 1 Raw.malformed] []))
        []).subscribe 0 "ticker" ["BTC/USD"] []).1 = .error .decodeError ∧
    ((Session.mk 30 (some (Conn.mk 30 [InEvent.mk 1 Raw.malformed] []))
        []).unsubscribe 0 "ticker" ["BTC/USD"] []).1 = .error .decodeError ∧
    ((Session.mk 30 (some (Conn.mk 30 [InEvent.mk 1 Raw.malformed] []))
        []).receive_messages 0 1 (some 5)).1 = .error .decodeError ∧
    ((Session.mk 30 (some (Conn.mk 30
        [InEvent.mk 1 (Raw.json sampleData1), InEvent.mk 2 Raw.malformed] []))
        []).receive_messages 0 2 (some 10)).1 = .ok [sampleData1] :=
  ⟨claim_C7_decode_error_policy.1 30 [] 30 [] 1 [] 0 5 (by decide),
   claim_C7_decode_error_policy.2.1 30 [] 30 [] 1 [] 0 "ticker" ["BTC/USD"] []
     (by decide),
   claim_C7_decode_error_policy.2.2.1 30 [] 30 [] 1 [] 0 "ticker" ["BTC/USD"] []
     (by decide),
   claim_C7_decode_error_policy.2.2.2.1 30 [] 30 [] 1 [] 0 1 (some 5)
     (by decide) (by decide),
   claim_C7_decode_error_policy.2.2.2.2 30 [] 30 []
     [InEvent.mk 1 (Raw.json sampleData1)] 2 [] 0 2 (some 10)
     (by intro ev hev
         simp only [List.mem_singleton] at hev
         subst hev
         exact ⟨by decide, sampleData1, rfl⟩)
     (by decide) (List.cons_ne_nil sampleData1 []) (by decide)⟩

theorem codeParts_nil_nil : codeParts [] [] = [] := rfl

theorem codeParts_cons_cons (a b : Level) (A B : List Level) :
    codeParts (a :: A) (b :: B) =
      stripDot a.price :: stripDot a.qty :: stripDot b.price :: stripDot b.qty ::
        codeParts A B := by
  simp only [codeParts, List.length_cons, Nat.succ_max_succ, List.range_succ_eq_map,
    List.flatMap_cons, List.flatMap_map, List.get?_cons_zero, List.get?_cons_succ]
  rfl

theorem codeParts_cons_nil (a : Level) (A : List Level) :
    codeParts (a :: A) [] =
      stripDot a.price :: stripDot a.qty :: codeParts A [] := by
  simp only [codeParts, List.length_cons, List.length_nil, Nat.max_zero,
    List.range_succ_eq_map, List.flatMap_cons, List.flatMap_map,
    List.get?_cons_zero, List.get?_cons_succ, List.get?_nil]
  rfl

theorem codeParts_nil_cons (b : Level) (B : List Level) :
    codeParts [] (b :: B) =
      stripDot b.price :: stripDot b.qty :: codeParts [] B := by
  simp only [codeParts, List.length_cons, List.length_nil, Nat.zero_max,
    List.range_succ_eq_map, List.flatMap_cons, List.flatMap_map,
    List.get?_cons_zero, List.get?_cons_succ, List.get?_nil]
  rfl

theorem string_join_cons (s : String) (l : List String) :
    String.join (s :: l) = s ++ String.join l := by
  apply String.ext
  simp [String.data_join, String.data_append]

/-- The joined checksum string of the source's loop equals the spec's
level-by-level interleaving. -/
theorem join_codeParts (A : List Level) :
    ∀ B : List Level, String.join (codeParts A B) = specInterleave A B := by
  induction A with
  | nil =>
      intro B
      induction B with
      | nil =>
          rw [codeParts_nil_nil]
          simp [specInterleave, String.join]
      | cons b B ihB =>
          rw [codeParts_nil_cons, string_join_cons, string_join_cons, ihB]
          simp [specInterleave, String.append_assoc]
  | cons a A ihA =>
      intro B
      cases B with
      | nil =>
          rw [codeParts_cons_nil, string_join_cons, string_join_cons, ihA []]
          simp [specInterleave, String.append_assoc]
      | cons b B =>
          rw [codeParts_cons_cons, string_join_cons, string_join_cons,
            string_join_cons, string_join_cons, ihA B]
          simp [specInterleave, String.append_assoc]

theorem crc32Step_lt (crc : Nat) (h : crc < 2 ^ 32) : crc32Step crc < 2 ^ 32 := by
  unfold crc32Step
  split
  · exact Nat.xor_lt_two_pow
      (Nat.lt_of_le_of_lt (Nat.div_le_self crc 2) h) (by norm_num)
  · exact Nat.lt_of_le_of_lt (Nat.div_le_self crc 2) h

theorem crc32Step_iterate_lt (n : Nat) : ∀ crc, crc < 2 ^ 32 →
    crc32Step^[n] crc < 2 ^ 32 := by
  induction n with
  | zero => intro crc h; simpa using h
  | succ n ih =>
      intro crc h
      rw [Function.iterate_succ_apply]
      exact ih _ (crc32Step_lt _ h)

theorem crc32Update_lt (crc b : Nat) (h : crc < 2 ^ 32) :
    crc32Update crc b < 2 ^ 32 := by
  unfold crc32Update
  exact crc32Step_iterate_lt 8 _ (Nat.xor_lt_two_pow h
    (Nat.lt_of_lt_of_le (Nat.mod_lt b (by norm_num)) (by norm_num)))

theorem crc32_foldl_lt (l : List Nat) : ∀ acc, acc < 2 ^ 32 →
    l.foldl crc32Update acc < 2 ^ 32 := by
  induction l with
  | nil => intro acc h; simpa using h
  | cons b l ih => intro acc h; exact ih _ (crc32Update_lt _ _ h)

/-- The crc32 model always yields an unsigned 32-bit value. -/
theorem crc32_lt (bytes : List Nat) : crc32 bytes < 2 ^ 32 := by
  unfold crc32
  exact Nat.xor_lt_two_pow (crc32_foldl_lt bytes 0xFFFFFFFF (by norm_num)) (by norm_num)

/-- C8: `calculate_book_checksum` computes the CRC-32 of the single
string obtained by interleaving, level by level over the top `depth`
levels, each ask's price and qty string followed by each bid's, decimal
points removed; the result is always below `2 ^ 32`; and the test's
checksum validation never compares this computed value with the
received checksum (its outcome depends only on the received value). -/
theorem claim_C8_checksum (bids asks : List Level) (depth : Nat) :
    calculate_book_checksum bids asks depth = spec_book_checksum bids asks depth ∧
    calculate_book_checksum bids asks depth < 2 ^ 32 ∧
    ∀ received : Int, checksumCheckPasses received bids asks = decide (0 < received) := by
  have hbridge : calculate_book_checksum bids asks depth =
      crc32 (asciiBytes (String.join (codeParts (asks.take depth) (bids.take depth)))) %
        4294967296 := rfl
  refine ⟨?_, ?_, fun r => rfl⟩
  · rw [hbridge, join_codeParts]
    have h := crc32_lt (asciiBytes (specInterleave (asks.take depth) (bids.take depth)))
    rw [Nat.mod_eq_of_lt (by norm_num at h ⊢; exact h)]
    rfl
  · rw [hbridge]
    have h := Nat.mod_lt
      (crc32 (asciiBytes (String.join (codeParts (asks.take depth) (bids.take depth)))))
      (show 0 < 4294967296 by norm_num)
    norm_num at h ⊢
    exact h

/-- Witness for C9 at a concrete connected session with an override. -/
theorem claim_C9_witness :
    ∃ ws1 : Conn,
      (((Session.mk 30 (some (Conn.mk 30
          [InEvent.mk 1 (Raw.json sampleData1)] [])) []).receive_message
          0 (some 5)).2.1).ws = some ws1 ∧
      ws1.timeout = (Conn.mk 30 [InEvent.mk 1 (Raw.json sampleData1)] []).timeout :=
  claim_C9_timeout_restored
    (Session.mk 30 (some (Conn.mk 30 [InEvent.mk 1 (Raw.json sampleData1)] [])) [])
    (Conn.mk 30 [InEvent.mk 1 (Raw.json sampleData1)] []) 0 (some 5) rfl
